import Mathlib

/-!
Shallow embedding of the entity-simulation core of the game
(source: src/unnamed/part_001, the feature-complete update loop; the
collision utility also appears verbatim in src/components/GameLogic.tsx).

Conventions of the embedding:
* JS numbers are modelled as rationals (`ℚ`); every arithmetic operation of
  the embedded code is exact on the inputs used here.
* Frame-counter and timer fields that the code compares against integers are
  modelled as `Int`/`Nat`.
* `Math.random()`-driven decisions are parameterised as explicit Boolean
  oracles; pure cosmetics (particles, floating texts, sounds, rotation
  fields used only by the renderer, screen shake) are omitted, since no
  modelled field reads them back.
* In-place mutation of the entity arrays is modelled by threading the lists
  through folds in the same iteration order as the source `forEach` loops.
-/

namespace Hunt

/-! ### Engine constants (src/unnamed/part_001 lines 10-25) -/

def GRAVITY : ℚ := 1/2

def JUMP_FORCE : ℚ := -12

def ARROW_GRAVITY : ℚ := 1/4

def NET_GRAVITY : ℚ := 2/5

def TRAP_COOLDOWN_FRAMES : Int := 120

def CANVAS_WIDTH : ℚ := 960

def CANVAS_HEIGHT : ℚ := 540

/-- Math.sign on rationals. -/
def qsign (q : ℚ) : ℚ := if q > 0 then 1 else if q < 0 then -1 else 0

/-- Math.min on rationals. -/
def qmin (a b : ℚ) : ℚ := if a ≤ b then a else b

/-- Math.abs on rationals. -/
def qabs (q : ℚ) : ℚ := if q < 0 then -q else q

/-! ### Geometry -/

/-- Axis-aligned rectangle: the positional part every entity carries. -/
structure Rect where
  x : ℚ
  y : ℚ
  width : ℚ
  height : ℚ
deriving DecidableEq

/-- The collision utility (part_001 lines 147-154; identical in
GameLogic.tsx lines 587-594). -/
def checkCollision (r1 r2 : Rect) : Bool :=
  (r1.x < r2.x + r2.width) &&
  (r1.x + r1.width > r2.x) &&
  (r1.y < r2.y + r2.height) &&
  (r1.y + r1.height > r2.y)

/-! ### Waterfowl (duck) -/

inductive DuckState
  | SWIM
  | FLY
  | FALL
  | DEAD
  | CARRIED
deriving DecidableEq

/-- Duck entity (types.ts `DuckEntity`); animation/colour fields used only
by the renderer are omitted. -/
structure Duck where
  x : ℚ
  y : ℚ
  width : ℚ
  height : ℚ
  vx : ℚ
  vy : ℚ
  facingRight : Bool
  state : DuckState
deriving DecidableEq

/-- The successive x updates of a swimming duck (part_001 line 1000):
`d.x += d.facingRight ? 0.5 : -0.5; if (d.x > CANVAS_WIDTH) d.x = 0;
if (d.x < 0) d.x = CANVAS_WIDTH;`. -/
def swimX (facingRight : Bool) (x : ℚ) : ℚ :=
  let x1 := x + (if facingRight then (1 : ℚ)/2 else -(1 : ℚ)/2)
  let x2 := if x1 > CANVAS_WIDTH then 0 else x1
  if x2 < 0 then CANVAS_WIDTH else x2

/-- Per-duck body of `updateDucks` (part_001 lines 998-1002), applied only
in the SWIM state. -/
def updateDuck (d : Duck) : Duck :=
  if d.state = DuckState.SWIM then { d with x := swimX d.facingRight d.x }
  else d

lemma updateDuck_facing (d : Duck) :
    (updateDuck d).facingRight = d.facingRight := by
  unfold updateDuck
  split <;> rfl

lemma updateDuck_x (d : Duck) (hs : d.state = DuckState.SWIM) :
    (updateDuck d).x = swimX d.facingRight d.x := by
  unfold updateDuck
  rw [if_pos hs]

lemma swimX_bounds (fr : Bool) (x : ℚ) (h0 : 0 ≤ x) (h1 : x ≤ CANVAS_WIDTH) :
    0 ≤ swimX fr x ∧ swimX fr x ≤ CANVAS_WIDTH := by
  unfold swimX CANVAS_WIDTH at *
  cases fr <;> simp only [Bool.false_eq_true, if_false, if_true, reduceIte] <;>
    split_ifs <;> constructor <;> linarith

lemma swimX_wrap_right (x : ℚ) (h : CANVAS_WIDTH < x + 1/2) :
    swimX true x = 0 := by
  unfold swimX CANVAS_WIDTH at *
  simp only [reduceIte]
  split_ifs <;> first | rfl | linarith

lemma swimX_wrap_left (x : ℚ) (h : x - 1/2 < 0) :
    swimX false x = CANVAS_WIDTH := by
  unfold swimX CANVAS_WIDTH at *
  simp only [Bool.false_eq_true, if_false, reduceIte]
  split_ifs <;> first | rfl | linarith

/-- A swimming duck sitting exactly at the right arena edge, facing right. -/
def duckAtRightEdge : Duck :=
  { x := 960, y := 490, width := 24, height := 16, vx := 0, vy := 0,
    facingRight := true, state := DuckState.SWIM }

/-- C9: the claim says a swimming duck reverses direction at an arena edge
and turns back rather than wrapping.  Counterexample: a duck at the right
edge, still facing right, is teleported to `x = 0` (the opposite edge) by
the same tick, and its facing direction is unchanged. -/
theorem C9_duck_wraps_counterexample :
    duckAtRightEdge.state = DuckState.SWIM ∧
    duckAtRightEdge.facingRight = true ∧
    duckAtRightEdge.x = 960 ∧
    (updateDuck duckAtRightEdge).x = 0 ∧
    (updateDuck duckAtRightEdge).facingRight = true := by
  refine ⟨rfl, rfl, rfl, ?_, rfl⟩
  norm_num [updateDuck, duckAtRightEdge, CANVAS_WIDTH, swimX]

/-- C9 (amended): a swimming duck moves 1/2 toward its facing side each
tick and, on passing an arena edge, wraps to the opposite edge; its facing
flag never changes, and its x stays within [0, CANVAS_WIDTH]. -/
theorem C9_duck_swim_wraps (d : Duck)
    (hs : d.state = DuckState.SWIM)
    (h0 : 0 ≤ d.x) (h1 : d.x ≤ CANVAS_WIDTH) :
    (updateDuck d).facingRight = d.facingRight ∧
    0 ≤ (updateDuck d).x ∧ (updateDuck d).x ≤ CANVAS_WIDTH ∧
    (d.facingRight = true → CANVAS_WIDTH < d.x + 1/2 → (updateDuck d).x = 0) ∧
    (d.facingRight = false → d.x - 1/2 < 0 → (updateDuck d).x = CANVAS_WIDTH) := by
  rw [updateDuck_x d hs]
  refine ⟨updateDuck_facing d, (swimX_bounds d.facingRight d.x h0 h1).1,
    (swimX_bounds d.facingRight d.x h0 h1).2, ?_, ?_⟩
  · intro hface hx
    rw [hface]
    exact swimX_wrap_right d.x hx
  · intro hface hx
    rw [hface]
    exact swimX_wrap_left d.x hx

/-- C9 witness: the amended theorem applied to a duck mid-lake. -/
theorem C9_duck_swim_wraps_witness :
    0 ≤ (updateDuck { duckAtRightEdge with x := 400 }).x ∧
    (updateDuck { duckAtRightEdge with x := 400 }).x ≤ CANVAS_WIDTH := by
  have h := C9_duck_swim_wraps { duckAtRightEdge with x := 400 } rfl
    (by norm_num) (by norm_num [CANVAS_WIDTH])
  exact ⟨h.2.1, h.2.2.1⟩

/-- C6: `checkCollision` returns true iff the two rectangles' intervals
overlap strictly on both axes (four strict comparisons), and two rectangles
that exactly share an edge are reported as non-colliding. -/
theorem C6_checkCollision_strict_overlap (r1 r2 : Rect) :
    (checkCollision r1 r2 = true ↔
      (r1.x < r2.x + r2.width ∧ r2.x < r1.x + r1.width ∧
       r1.y < r2.y + r2.height ∧ r2.y < r1.y + r1.height)) ∧
    (r1.x + r1.width = r2.x → checkCollision r1 r2 = false) := by
  constructor
  · simp only [checkCollision, Bool.and_eq_true, decide_eq_true_eq]
    tauto
  · intro h
    simp [checkCollision, h, lt_irrefl]

/-! ### Game state, level director, delayed effects -/

inductive GameStatus
  | MENU
  | PLAYING
  | LEVEL_TRANSITION
  | GAME_OVER
  | VICTORY
deriving DecidableEq

/-- The `GameState` record (types.ts lines 306-318); render-only fields
(`waveProgress`, rain and lightning bookkeeping) are omitted, `isRaining`
is kept because `startLevel` writes it. -/
structure GameSt where
  status : GameStatus
  level : Nat
  score : Int
  lives : Int
  maxWaves : Nat
  enemiesKilled : Nat
  enemiesRequired : Nat
  isRaining : Bool
deriving DecidableEq

/-- Effect of `startLevel` (part_001 lines 174-179) on the game record,
combined with the `enemiesRequired = 5` override that `generateLevel`
applies for level 3 (line 288): `enemiesKilled = 0`,
`enemiesRequired = level === 1 ? 4 : 4 + level*2`,
`isRaining = level === 2 || level === 5`. -/
def startLevelSt (level : Nat) (s : GameSt) : GameSt :=
  { s with
    level := level,
    enemiesKilled := 0,
    enemiesRequired := if level = 3 then 5 else if level = 1 then 4 else 4 + level * 2,
    isRaining := level = 2 || level = 5 }

/-- `nextLevel` (part_001 lines 321-333): the synchronous part.  When the
current level is the last, status becomes VICTORY; otherwise status becomes
LEVEL_TRANSITION and a 3000 ms callback (`nextLevelTimeoutFire` below) is
scheduled. -/
def nextLevel (s : GameSt) : GameSt :=
  if s.level ≥ s.maxWaves then { s with status := GameStatus.VICTORY }
  else { s with status := GameStatus.LEVEL_TRANSITION }

/-- The delayed callback scheduled by `nextLevel` (part_001 lines 328-331):
`startLevel(state.current.level + 1); state.current.status = PLAYING;`.
Note that it applies unconditionally: it does not inspect the status at
firing time. -/
def nextLevelTimeoutFire (s : GameSt) : GameSt :=
  { startLevelSt (s.level + 1) s with status := GameStatus.PLAYING }

/-- `setGameOver` (part_001 lines 349-352). -/
def setGameOver (s : GameSt) : GameSt :=
  { s with status := GameStatus.GAME_OVER }

/-- The synchronous part of `handlePlayerDeath` (part_001 lines 335-347):
decrement lives; with lives remaining it only schedules the 500 ms respawn
callback (`deathTimeoutFire` below), otherwise it calls `setGameOver`. -/
def handlePlayerDeath (s : GameSt) : GameSt :=
  let s1 := { s with lives := s.lives - 1 }
  if s1.lives > 0 then s1 else setGameOver s1

/-- The delayed callback scheduled by `handlePlayerDeath` (part_001 lines
341-343): `if (state.current.status === GameStatus.PLAYING)
startLevel(state.current.level);` — this one does check the status. -/
def deathTimeoutFire (s : GameSt) : GameSt :=
  if s.status = GameStatus.PLAYING then startLevelSt s.level s else s

/-- The game state while sitting in the menu. -/
def menuSt : GameSt :=
  { status := GameStatus.MENU, level := 1, score := 0, lives := 3,
    maxWaves := 5, enemiesKilled := 0, enemiesRequired := 4, isRaining := false }

/-- C5: the claim says every delayed effect (level transition and respawn)
checks the current status before applying its state change.
Counterexample: the level-transition callback fires while the status is
MENU (e.g. the player tapped during the transition, restarting the game)
and still forces the game into the next level and PLAYING status. -/
theorem C5_transition_fire_ignores_status_counterexample :
    menuSt.status = GameStatus.MENU ∧
    (nextLevelTimeoutFire menuSt).status = GameStatus.PLAYING ∧
    (nextLevelTimeoutFire menuSt).level = 2 ∧
    nextLevelTimeoutFire menuSt ≠ menuSt := by
  refine ⟨rfl, rfl, rfl, ?_⟩
  intro h
  exact absurd (congrArg GameSt.status h) (by simp [nextLevelTimeoutFire, startLevelSt, menuSt])

/-- C5 (amended): the respawn callback checks `status === PLAYING` and is a
no-op when the status changed before it fires, but the level-transition
callback applies unconditionally and always leaves the status PLAYING. -/
theorem C5_delayed_effects (s : GameSt) (h : s.status ≠ GameStatus.PLAYING) :
    deathTimeoutFire s = s ∧
    (nextLevelTimeoutFire s).status = GameStatus.PLAYING := by
  constructor
  · unfold deathTimeoutFire
    rw [if_neg h]
  · rfl

/-- C5 witness: the amended theorem applied to the menu state. -/
theorem C5_delayed_effects_witness :
    deathTimeoutFire menuSt = menuSt ∧
    (nextLevelTimeoutFire menuSt).status = GameStatus.PLAYING := by
  exact C5_delayed_effects menuSt (by simp [menuSt])

/-! ### Level-exit gate (C4) -/

/-- The door entity: its rectangle and open flag (types.ts `DoorEntity`). -/
structure DoorSt where
  rect : Rect
  isOpen : Bool
deriving DecidableEq

/-- Game record plus door, the state read by the gate logic of `update`. -/
structure GateWorld where
  game : GameSt
  door : DoorSt
deriving DecidableEq

/-- The gate phase of one `update` tick (part_001): line 400 returns early
unless status is PLAYING; lines 417-419 recompute
`door.isOpen = enemiesKilled >= enemiesRequired`; lines 476-481 call
`nextLevel()` and return when the (post-physics) player rectangle overlaps
the open door.  `playerRect` is the player rectangle at the moment of the
check, after the tick's physics integration.  The returned Boolean records
whether the transition fired this tick. -/
def gatePhase (w : GateWorld) (playerRect : Rect) : GateWorld × Bool :=
  if w.game.status = GameStatus.PLAYING then
    let door : DoorSt :=
      { w.door with isOpen := decide (w.game.enemiesKilled ≥ w.game.enemiesRequired) }
    if door.isOpen = true ∧ checkCollision playerRect door.rect = true then
      ({ game := nextLevel w.game, door := door }, true)
    else ({ w with door := door }, false)
  else (w, false)

lemma nextLevel_status_ne_playing (s : GameSt) :
    (nextLevel s).status ≠ GameStatus.PLAYING := by
  unfold nextLevel
  split <;> simp

/-- C4: the transition fires in a tick iff the game is in PLAYING status,
`enemiesKilled ≥ enemiesRequired` (which is what sets the door's open
flag), and the player rectangle overlaps the door; and once it has fired,
the very next tick cannot fire it again even under sustained overlap,
because the status is no longer PLAYING. -/
theorem C4_gate_transition_iff_and_once (w : GateWorld) (pr pr2 : Rect) :
    ((gatePhase w pr).2 = true ↔
      (w.game.status = GameStatus.PLAYING ∧
       w.game.enemiesKilled ≥ w.game.enemiesRequired ∧
       checkCollision pr w.door.rect = true)) ∧
    (w.game.status = GameStatus.PLAYING →
      (gatePhase w pr).1.door.isOpen =
        decide (w.game.enemiesKilled ≥ w.game.enemiesRequired)) ∧
    ((gatePhase w pr).2 = true → (gatePhase (gatePhase w pr).1 pr2).2 = false) := by
  unfold gatePhase
  by_cases hst : w.game.status = GameStatus.PLAYING
  · rw [if_pos hst]
    by_cases hk : w.game.enemiesKilled ≥ w.game.enemiesRequired
    · by_cases hc : checkCollision pr w.door.rect = true
      · rw [if_pos (by simp [hk, hc])]
        refine ⟨by simp [hst, hk, hc], fun _ => by simp [hk], fun _ => ?_⟩
        rw [if_neg (by exact nextLevel_status_ne_playing w.game)]
      · rw [if_neg (by simp [hc])]
        refine ⟨by simp [hc], fun _ => by simp [hk], fun h => by simp at h⟩
    · rw [if_neg (by simp [hk])]
      refine ⟨by simp [hk], fun _ => by simp [hk], fun h => by simp at h⟩
  · rw [if_neg hst]
    refine ⟨by simp [hst], fun h => absurd h hst, fun h => by simp at h⟩

/-- C4 witness: a PLAYING world with the requirement met and the player
standing inside the door fires the transition, and the following tick does
not fire it again. -/
theorem C4_gate_transition_witness :
    (gatePhase
      { game := { menuSt with status := GameStatus.PLAYING, enemiesKilled := 4 },
        door := { rect := { x := 880, y := 444, width := 40, height := 64 }, isOpen := false } }
      { x := 890, y := 450, width := 24, height := 48 }).2 = true ∧
    (gatePhase
      (gatePhase
        { game := { menuSt with status := GameStatus.PLAYING, enemiesKilled := 4 },
          door := { rect := { x := 880, y := 444, width := 40, height := 64 }, isOpen := false } }
        { x := 890, y := 450, width := 24, height := 48 }).1
      { x := 890, y := 450, width := 24, height := 48 }).2 = false := by
  have h := C4_gate_transition_iff_and_once
    { game := { menuSt with status := GameStatus.PLAYING, enemiesKilled := 4 },
      door := { rect := { x := 880, y := 444, width := 40, height := 64 }, isOpen := false } }
    { x := 890, y := 450, width := 24, height := 48 }
    { x := 890, y := 450, width := 24, height := 48 }
  have hfire := h.1.mpr ⟨rfl, by norm_num [menuSt], by norm_num [checkCollision]⟩
  exact ⟨hfire, h.2.2 hfire⟩

/-! ### Kill accounting (C10) -/

/-- Effect of `killEnemy` (part_001 lines 916-929) on the game record:
`enemiesKilled++`, `score += 100`.  (The enemy-side effect — marking it for
deletion — and the probabilistic meat/power-up drops touch no game-record
field and are modelled with the enemy entities below.) -/
def killEnemyGame (s : GameSt) : GameSt :=
  { s with enemiesKilled := s.enemiesKilled + 1, score := s.score + 100 }

/-- Effect of the dog delivering a caught rabbit (part_001 lines 692-699)
on the game record: `enemiesKilled++` only. -/
def dogDeliverGame (s : GameSt) : GameSt :=
  { s with enemiesKilled := s.enemiesKilled + 1 }

/-- The two update-loop events that write `enemiesKilled` during a level.
Every other write site (`initGame` line 165, `startLevel` line 177) runs
only at a level boundary. -/
inductive KillEvent
  | kill
  | deliver
deriving DecidableEq

def applyKillEvent (s : GameSt) : KillEvent → GameSt
  | KillEvent.kill => killEnemyGame s
  | KillEvent.deliver => dogDeliverGame s

/-- The kill events of any stretch of in-level ticks, in order. -/
def applyKillEvents (s : GameSt) (evs : List KillEvent) : GameSt :=
  evs.foldl applyKillEvent s

/-- The door-open recomputation of each tick (part_001 lines 417-419). -/
def doorOpenOf (s : GameSt) : Bool :=
  decide (s.enemiesKilled ≥ s.enemiesRequired)

lemma applyKillEvent_killed (s : GameSt) (ev : KillEvent) :
    (applyKillEvent s ev).enemiesKilled = s.enemiesKilled + 1 ∧
    (applyKillEvent s ev).enemiesRequired = s.enemiesRequired := by
  cases ev <;> exact ⟨rfl, rfl⟩

/-- C10: within a level, `enemiesKilled` never decreases (every update-loop
write is an increment) and `enemiesRequired` is untouched, hence once the
door-open recomputation yields true it stays true for the rest of the
level. -/
theorem C10_enemiesKilled_monotone (s : GameSt) (evs : List KillEvent) :
    s.enemiesKilled ≤ (applyKillEvents s evs).enemiesKilled ∧
    (applyKillEvents s evs).enemiesRequired = s.enemiesRequired ∧
    (doorOpenOf s = true → doorOpenOf (applyKillEvents s evs) = true) := by
  induction evs generalizing s with
  | nil => exact ⟨le_refl _, rfl, fun h => h⟩
  | cons ev evs ih =>
    have hstep := applyKillEvent_killed s ev
    have ihs := ih (applyKillEvent s ev)
    refine ⟨?_, ?_, ?_⟩
    · calc s.enemiesKilled ≤ (applyKillEvent s ev).enemiesKilled := by omega
        _ ≤ (applyKillEvents (applyKillEvent s ev) evs).enemiesKilled := ihs.1
    · calc (applyKillEvents (applyKillEvent s ev) evs).enemiesRequired
          = (applyKillEvent s ev).enemiesRequired := ihs.2.1
        _ = s.enemiesRequired := hstep.2
    · intro hopen
      apply ihs.2.2
      unfold doorOpenOf at hopen ⊢
      rw [hstep.1, hstep.2]
      simp only [decide_eq_true_eq] at hopen ⊢
      omega

/-- C10 witness: four kills and a delivery starting from a fresh PLAYING
state with requirement 4: the count rises to 5 and the recomputed door
flag stays true after the extra delivery. -/
theorem C10_enemiesKilled_monotone_witness :
    ({ menuSt with status := GameStatus.PLAYING } : GameSt).enemiesKilled ≤
      (applyKillEvents { menuSt with status := GameStatus.PLAYING }
        [KillEvent.kill, KillEvent.kill, KillEvent.kill, KillEvent.kill,
         KillEvent.deliver]).enemiesKilled ∧
    (doorOpenOf (applyKillEvents
        { menuSt with status := GameStatus.PLAYING, enemiesKilled := 4 }
        [KillEvent.deliver]) = true) := by
  constructor
  · exact (C10_enemiesKilled_monotone { menuSt with status := GameStatus.PLAYING }
      [KillEvent.kill, KillEvent.kill, KillEvent.kill, KillEvent.kill,
       KillEvent.deliver]).1
  · exact (C10_enemiesKilled_monotone
      { menuSt with status := GameStatus.PLAYING, enemiesKilled := 4 }
      [KillEvent.deliver]).2.2 (by simp [doorOpenOf, menuSt])

/-! ### Net-throw cooldown (C7) -/

/-- The net-throw gate of one tick (part_001 lines 493-498):
`if (player.trapCooldown > 0) player.trapCooldown--;
if (throwNet && player.trapCooldown <= 0) { fireNet(player);
player.trapCooldown = TRAP_COOLDOWN_FRAMES; }`.
Returns (fired?, new cooldown). -/
def netThrowTick (throwNet : Bool) (trapCooldown : Int) : Bool × Int :=
  let cd := if trapCooldown > 0 then trapCooldown - 1 else trapCooldown
  if throwNet = true ∧ cd ≤ 0 then (true, TRAP_COOLDOWN_FRAMES)
  else (false, cd)

/-- C7: the claim says a tick in which the trigger holds but the stored
timer is positive fires nothing.  Counterexample: entering the tick with
`trapCooldown = 1` (positive) and the trigger held, the decrement runs
first and the net fires in that same tick. -/
theorem C7_net_fires_at_cooldown_one_counterexample :
    (1 : Int) > 0 ∧
    (netThrowTick true 1).1 = true ∧
    (netThrowTick true 1).2 = TRAP_COOLDOWN_FRAMES := by
  refine ⟨by norm_num, ?_, ?_⟩ <;> rfl

/-- C7 (amended): the cooldown is decremented before the gate is checked,
so the net fires iff the trigger holds and the stored timer at tick entry
is ≤ 1 (equivalently the decremented timer is ≤ 0); firing resets the
timer to TRAP_COOLDOWN_FRAMES = 120; and with the trigger held but the
timer still above 1, nothing fires and the timer only decrements. -/
theorem C7_net_cooldown_gate (throwNet : Bool) (cd : Int) :
    ((netThrowTick throwNet cd).1 = true ↔ (throwNet = true ∧ cd ≤ 1)) ∧
    ((netThrowTick throwNet cd).1 = true →
      (netThrowTick throwNet cd).2 = TRAP_COOLDOWN_FRAMES) ∧
    (throwNet = true → 1 < cd →
      (netThrowTick throwNet cd).1 = false ∧
      (netThrowTick throwNet cd).2 = cd - 1) := by
  unfold netThrowTick
  by_cases hpos : cd > 0
  · rw [if_pos hpos]
    by_cases hfire : throwNet = true ∧ cd - 1 ≤ 0
    · rw [if_pos hfire]
      exact ⟨by simp [hfire.1]; omega, fun _ => rfl, fun _ hgt => by omega⟩
    · rw [if_neg hfire]
      refine ⟨by simp; intro h1; simp [h1] at hfire; omega, by simp, ?_⟩
      exact fun ht hgt => ⟨rfl, rfl⟩
  · rw [if_neg hpos]
    by_cases hfire : throwNet = true ∧ cd ≤ 0
    · rw [if_pos hfire]
      exact ⟨by simp [hfire.1]; omega, fun _ => rfl, fun _ hgt => by omega⟩
    · rw [if_neg hfire]
      refine ⟨by simp; intro h1; simp [h1] at hfire; omega, by simp, ?_⟩
      exact fun ht hgt => absurd hgt (by omega)

/-- C7 witness: the amended theorem applied at cooldown 0 (fires, resets to
120) and at cooldown 120 with the trigger held (does not fire, decrements
to 119). -/
theorem C7_net_cooldown_gate_witness :
    (netThrowTick true 0).1 = true ∧
    (netThrowTick true 0).2 = TRAP_COOLDOWN_FRAMES ∧
    (netThrowTick true 120).1 = false ∧
    (netThrowTick true 120).2 = 119 := by
  have h0 := C7_net_cooldown_gate true 0
  have h120 := C7_net_cooldown_gate true 120
  have hf := h0.1.mpr ⟨rfl, by norm_num⟩
  refine ⟨hf, h0.2.1 hf, ?_, ?_⟩
  · exact (h120.2.2 rfl (by norm_num)).1
  · have := (h120.2.2 rfl (by norm_num)).2
    omega

/-! ### Entities -/

/-- Player entity (types.ts `PlayerEntity`).  `aimAngle`/`isAiming` feed
only the firing direction of spawned projectiles (trigonometry, render
side) and are omitted; `animTimer` is render-only. -/
structure Player where
  x : ℚ
  y : ℚ
  width : ℚ
  height : ℚ
  vx : ℚ
  vy : ℚ
  grounded : Bool
  markedForDeletion : Bool
  facingRight : Bool
  health : ℚ
  maxHealth : ℚ
  trapCooldown : Int
  powerUpTimer : Int
  dashTimer : Int
  isDashing : Bool
  invulnerableTimer : Int
deriving DecidableEq

def Player.rect (p : Player) : Rect := ⟨p.x, p.y, p.width, p.height⟩

/-- Hostile creature (types.ts `EnemyEntity`); `tier` only selects the
spawn-time size/health constants and `color` is render-only, both
omitted. -/
structure Enemy where
  x : ℚ
  y : ℚ
  width : ℚ
  height : ℚ
  vx : ℚ
  vy : ℚ
  grounded : Bool
  markedForDeletion : Bool
  health : ℚ
  maxHealth : ℚ
  stunTimer : Int
deriving DecidableEq

def Enemy.rect (e : Enemy) : Rect := ⟨e.x, e.y, e.width, e.height⟩

/-- Aerial raider (types.ts `CrowEntity`); the Patrol/Dive/Return movement
fields are not needed by the claims settled here, only its rectangle,
health and deletion flag are. -/
structure Crow where
  x : ℚ
  y : ℚ
  width : ℚ
  height : ℚ
  markedForDeletion : Bool
  health : ℚ
deriving DecidableEq

def Crow.rect (c : Crow) : Rect := ⟨c.x, c.y, c.width, c.height⟩

/-- Meat pickup (types.ts `MeatEntity`). -/
structure Meat where
  x : ℚ
  y : ℚ
  width : ℚ
  height : ℚ
  vy : ℚ
  markedForDeletion : Bool
  value : ℚ
deriving DecidableEq

def Meat.rect (m : Meat) : Rect := ⟨m.x, m.y, m.width, m.height⟩

/-- Capture net in flight (types.ts `TrapEntity`), rotation omitted. -/
structure Net where
  x : ℚ
  y : ℚ
  width : ℚ
  height : ℚ
  vx : ℚ
  vy : ℚ
  markedForDeletion : Bool
deriving DecidableEq

def Net.rect (t : Net) : Rect := ⟨t.x, t.y, t.width, t.height⟩

/-- Arrow projectile (types.ts `ArrowEntity`), rotation omitted. -/
structure Arrow where
  x : ℚ
  y : ℚ
  width : ℚ
  height : ℚ
  vx : ℚ
  vy : ℚ
  markedForDeletion : Bool
  lifeTime : Int
deriving DecidableEq

def Arrow.rect (a : Arrow) : Rect := ⟨a.x, a.y, a.width, a.height⟩

/-- Cage container (types.ts `CageEntity`). -/
structure Cage where
  x : ℚ
  y : ℚ
  width : ℚ
  height : ℚ
  health : ℚ
  markedForDeletion : Bool
deriving DecidableEq

def Cage.rect (c : Cage) : Rect := ⟨c.x, c.y, c.width, c.height⟩

/-! ### Hostile-creature AI (C2) -/

/-- The platform-resting pass `checkPlatformCollisions` (part_001 lines
888-903): `grounded` is cleared, then each platform in order may snap the
entity onto its top (`y = p.y - height`, `vy = 0`, `grounded = true`);
every comparison uses the values as mutated so far.  Returns
(y, vy, grounded). -/
def checkPlatformCollisions (plats : List Rect) (x w h : ℚ) (y vy : ℚ) :
    ℚ × ℚ × Bool :=
  plats.foldl
    (fun s p =>
      if x < p.x + p.width ∧ x + w > p.x ∧ s.1 + h > p.y ∧
         s.1 + h < p.y + p.height + 10 ∧ s.2.1 ≥ 0 then
        (p.y - h, 0, true)
      else s)
    (y, vy, false)

/-- The per-creature AI branch of `updateEnemies` (part_001 lines
943-959), for the side-scrolling levels (the spawner never creates
hostile creatures on the top-down level 3, line 932, so the
`isTopDown()` sub-branch is dead for them).  With `stunTimer > 0` the
creature only decrements the stun and has `vx` forced to 0.  Otherwise,
when the player is within distance 400 (`dx² + dy² < 400²`, an exact
rendering of `Math.sqrt(dx*dx+dy*dy) < 400`), `vx` is assigned and then
immediately overwritten with `Math.sign(dx) * 0.5`, and the creature may
jump when grounded, with probability 0.01 (oracle `jumpRand`) or when the
player is well above and close. -/
def enemyAIStep (jumpRand : Bool) (px py : ℚ) (e : Enemy) : Enemy :=
  if e.stunTimer > 0 then { e with stunTimer := e.stunTimer - 1, vx := 0 }
  else
    let dx := px - e.x
    let dy := py - e.y
    if dx ^ 2 + dy ^ 2 < 160000 then
      let e1 := { e with vx := qsign dx * (1/2) }
      if e1.grounded = true ∧ (jumpRand = true ∨ (dy < -50 ∧ qabs dx < 100)) then
        { e1 with vy := JUMP_FORCE, grounded := false }
      else e1
    else e

/-- The physics tail of the same loop body (part_001 lines 960-961):
gravity, platform snap, floor clamp at `CANVAS_HEIGHT - 32`, then the
position integration `e.x += e.vx; e.y += e.vy`. -/
def enemyPhysicsStep (plats : List Rect) (e : Enemy) : Enemy :=
  let vy0 := e.vy + GRAVITY
  let s := checkPlatformCollisions plats e.x e.width e.height e.y vy0
  let s2 : ℚ × ℚ × Bool :=
    if s.1 + e.height > CANVAS_HEIGHT - 32 then
      (CANVAS_HEIGHT - 32 - e.height, 0, true)
    else s
  { e with x := e.x + e.vx, y := s2.1 + s2.2.1, vy := s2.2.1, grounded := s2.2.2 }

/-- One creature's slice of `updateEnemies` for a tick (AI then physics).
The player-contact branch (lines 962-966) mutates only the player and the
game record, never the creature, and is modelled separately for C1. -/
def enemyTickStep (jumpRand : Bool) (plats : List Rect) (px py : ℚ)
    (e : Enemy) : Enemy :=
  enemyPhysicsStep plats (enemyAIStep jumpRand px py e)

/-- Flying-net physics for one tick (part_001 lines 1035-1037):
gravity 0.4, integrate, delete below the canvas. -/
def netPhysicsStep (t : Net) : Net :=
  let vy := t.vy + NET_GRAVITY
  { t with
    vy := vy,
    x := t.x + t.vx,
    y := t.y + vy,
    markedForDeletion := t.markedForDeletion || decide (t.y + vy > CANVAS_HEIGHT) }

/-- Net-vs-creature capture (part_001 lines 1038-1040): on overlap the net
is consumed and the creature's `stunTimer` is set to 180; nothing else on
the creature — in particular not its velocity — is written. -/
def netHitEnemy (t : Net) (e : Enemy) : Net × Enemy :=
  if checkCollision t.rect e.rect = true then
    ({ t with markedForDeletion := true }, { e with stunTimer := 180 })
  else (t, e)

/-- A hostile creature resting on the floor near the player, not stunned. -/
def enemyOnFloor : Enemy :=
  { x := 100, y := 484, width := 36, height := 24, vx := 0, vy := 0,
    grounded := true, markedForDeletion := false, health := 2, maxHealth := 2,
    stunTimer := 0 }

/-- A flying net placed on top of that creature. -/
def netOnEnemy : Net :=
  { x := 100.5, y := 484.5, width := 16, height := 16, vx := 0, vy := 0,
    markedForDeletion := false }

/-- C2: the claim says a creature whose `stunTimer` becomes positive at any
point of a tick receives no AI-driven horizontal velocity change during
that tick, including the tick in which a net hit sets the timer.
Counterexample: a creature with `stunTimer = 0` and `vx = 0` is steered by
the AI to `vx = 1/2` early in the tick (updateEnemies), and the net that
hits it later the same tick (updateNets) sets `stunTimer = 180` without
restoring `vx`, so the tick ends with `stunTimer > 0` and an AI-modified
velocity. -/
theorem C2_stun_set_after_ai_counterexample :
    enemyOnFloor.stunTimer = 0 ∧
    enemyOnFloor.vx = 0 ∧
    ((netHitEnemy (netPhysicsStep netOnEnemy)
        (enemyTickStep false [] 300 484 enemyOnFloor)).2.stunTimer = 180 ∧
     (netHitEnemy (netPhysicsStep netOnEnemy)
        (enemyTickStep false [] 300 484 enemyOnFloor)).2.vx = 1/2 ∧
     (enemyAIStep false 300 484 enemyOnFloor).vx ≠ enemyOnFloor.vx) := by
  refine ⟨rfl, rfl, ?_, ?_, ?_⟩ <;>
    norm_num [netHitEnemy, netPhysicsStep, netOnEnemy, enemyTickStep,
      enemyPhysicsStep, enemyAIStep, enemyOnFloor, checkPlatformCollisions,
      checkCollision, qsign, qabs, Net.rect, Enemy.rect, GRAVITY, JUMP_FORCE,
      NET_GRAVITY, CANVAS_HEIGHT]

/-- C2 (amended): a creature whose `stunTimer` is positive when the enemy
update processes it gets no AI steering that tick: its `vx` is forced to 0,
the stun only decrements, and nothing else of the AI branch runs. -/
theorem C2_stunned_no_ai_velocity (jumpRand : Bool) (px py : ℚ) (e : Enemy)
    (h : e.stunTimer > 0) :
    enemyAIStep jumpRand px py e =
      { e with stunTimer := e.stunTimer - 1, vx := 0 } := by
  unfold enemyAIStep
  rw [if_pos h]

/-- C2 witness: the amended theorem applied to a freshly netted creature. -/
theorem C2_stunned_no_ai_velocity_witness :
    (enemyAIStep true 300 484 { enemyOnFloor with stunTimer := 180, vx := 7 }).vx = 0 ∧
    (enemyAIStep true 300 484 { enemyOnFloor with stunTimer := 180, vx := 7 }).stunTimer = 179 := by
  rw [C2_stunned_no_ai_velocity true 300 484
    { enemyOnFloor with stunTimer := 180, vx := 7 } (by norm_num [enemyOnFloor])]
  exact ⟨rfl, rfl⟩

/-! ### Player health over one tick (C1) -/

/-- Creature-vs-player contact damage (part_001 lines 962-966): 10 damage,
knockback, 60 i-frames, and `handlePlayerDeath` when health drops to ≤ 0.
Neither branch clamps `health` at 0, and `handlePlayerDeath` does not
write `health`. -/
def enemyContactPlayer (e : Enemy) (p : Player) (g : GameSt) :
    Player × GameSt :=
  if checkCollision p.rect e.rect = true ∧ p.invulnerableTimer ≤ 0 ∧
     e.stunTimer ≤ 0 then
    let p1 := { p with
      health := p.health - 10,
      invulnerableTimer := 60,
      vx := qsign (p.x - e.x) * 10,
      vy := -5 }
    if p1.health ≤ 0 then (p1, handlePlayerDeath g) else (p1, g)
  else (p, g)

/-- Crow-vs-player contact damage (part_001 lines 990-993): 15 damage,
60 i-frames, death handling at ≤ 0; again no clamp of `health` at 0. -/
def crowContactPlayer (c : Crow) (p : Player) (g : GameSt) :
    Player × GameSt :=
  if checkCollision c.rect p.rect = true ∧ p.invulnerableTimer ≤ 0 then
    let p1 := { p with health := p.health - 15, invulnerableTimer := 60 }
    if p1.health ≤ 0 then (p1, handlePlayerDeath g) else (p1, g)
  else (p, g)

/-- Meat pickup (part_001 lines 669-676): the meat is consumed,
`health = Math.min(maxHealth, health + 20)`, `score += 50`. -/
def meatPickupPlayer (m : Meat) (p : Player) (g : GameSt) :
    Meat × Player × GameSt :=
  if checkCollision p.rect m.rect = true then
    ({ m with markedForDeletion := true },
     { p with health := qmin p.maxHealth (p.health + 20) },
     { g with score := g.score + 50 })
  else (m, p, g)

/-- The healing pulse of the dog's HEAL state (part_001 lines 843-849):
every 60th frame, `health = Math.min(maxHealth, health + 5)`. -/
def dogHealPulse (frameCount : Nat) (p : Player) : Player :=
  if frameCount % 60 = 0 then
    { p with health := qmin p.maxHealth (p.health + 5) }
  else p

/-- Projection of one `update` tick onto the writes of `player.health`, in
source order: creature contacts (updateEnemies), crow contacts
(updateCrows), meat pickups (updateMeats), then the dog's heal pulse
(updateDog, only when the dog is in the HEAL state — abstracted by
`dogHealing`).  The entity lists hold each entity's state at the moment of
its collision check. -/
def playerHealthTick (es : List Enemy) (cs : List Crow) (ms : List Meat)
    (dogHealing : Bool) (frameCount : Nat) (p : Player) (g : GameSt) :
    Player × GameSt :=
  let pg1 := es.foldl (fun pg e => enemyContactPlayer e pg.1 pg.2) (p, g)
  let pg2 := cs.foldl (fun pg c => crowContactPlayer c pg.1 pg.2) pg1
  let pg3 := ms.foldl (fun pg m =>
    let r := meatPickupPlayer m pg.1 pg.2
    (r.2.1, r.2.2)) pg2
  let p4 := if dogHealing = true then dogHealPulse frameCount pg3.1 else pg3.1
  (p4, pg3.2)

/-- A player with 10 health left (of 100) and no i-frames. -/
def woundedPlayer : Player :=
  { x := 50, y := 100, width := 24, height := 48, vx := 0, vy := 0,
    grounded := false, markedForDeletion := false, facingRight := true,
    health := 10, maxHealth := 100, trapCooldown := 0, powerUpTimer := 0,
    dashTimer := 0, isDashing := false, invulnerableTimer := 0 }

/-- A crow overlapping that player. -/
def crowOnPlayer : Crow :=
  { x := 50, y := 100, width := 24, height := 24,
    markedForDeletion := false, health := 2 }

/-- The running game record during level 1. -/
def playingSt : GameSt :=
  { menuSt with status := GameStatus.PLAYING }

/-- C1: the claim says stored health always satisfies 0 ≤ health after a
tick.  Counterexample: a player at 10 health hit by a crow (15 damage)
ends the tick with health = −5; the death handler decrements lives and
schedules a respawn but never clamps or resets the stored health. -/
theorem C1_health_negative_counterexample :
    woundedPlayer.health = 10 ∧
    (0 : ℚ) ≤ woundedPlayer.health ∧
    woundedPlayer.health ≤ woundedPlayer.maxHealth ∧
    (playerHealthTick [] [crowOnPlayer] [] false 1 woundedPlayer playingSt).1.health = -5 ∧
    ¬(0 ≤ (playerHealthTick [] [crowOnPlayer] [] false 1 woundedPlayer playingSt).1.health) := by
  refine ⟨rfl, by norm_num [woundedPlayer], by norm_num [woundedPlayer], ?_, ?_⟩ <;>
    norm_num [playerHealthTick, crowContactPlayer, crowOnPlayer, woundedPlayer,
      playingSt, menuSt, checkCollision, Crow.rect, Player.rect,
      handlePlayerDeath, setGameOver, qmin]

lemma enemyContactPlayer_health (e : Enemy) (p : Player) (g : GameSt) :
    (enemyContactPlayer e p g).1.health ≤ p.health ∧
    (enemyContactPlayer e p g).1.maxHealth = p.maxHealth := by
  unfold enemyContactPlayer
  split_ifs with h1
  · constructor <;> (dsimp only; split_ifs <;> first | rfl | norm_num)
  · exact ⟨le_refl _, rfl⟩

lemma crowContactPlayer_health (c : Crow) (p : Player) (g : GameSt) :
    (crowContactPlayer c p g).1.health ≤ p.health ∧
    (crowContactPlayer c p g).1.maxHealth = p.maxHealth := by
  unfold crowContactPlayer
  split_ifs with h1
  · constructor <;> (dsimp only; split_ifs <;> first | rfl | norm_num)
  · exact ⟨le_refl _, rfl⟩

lemma meatPickupPlayer_health (m : Meat) (p : Player) (g : GameSt)
    (h : p.health ≤ p.maxHealth) :
    (meatPickupPlayer m p g).2.1.health ≤ (meatPickupPlayer m p g).2.1.maxHealth ∧
    (meatPickupPlayer m p g).2.1.maxHealth = p.maxHealth := by
  unfold meatPickupPlayer qmin
  split_ifs <;> constructor <;> dsimp only <;> first | rfl | exact h | linarith

lemma dogHealPulse_health (fc : Nat) (p : Player) (h : p.health ≤ p.maxHealth) :
    (dogHealPulse fc p).health ≤ (dogHealPulse fc p).maxHealth ∧
    (dogHealPulse fc p).maxHealth = p.maxHealth := by
  unfold dogHealPulse qmin
  split_ifs <;> constructor <;> dsimp only <;> first | rfl | exact h | linarith

lemma enemiesPhase_health (es : List Enemy) (pg : Player × GameSt) :
    (es.foldl (fun pg e => enemyContactPlayer e pg.1 pg.2) pg).1.health ≤ pg.1.health ∧
    (es.foldl (fun pg e => enemyContactPlayer e pg.1 pg.2) pg).1.maxHealth = pg.1.maxHealth := by
  induction es generalizing pg with
  | nil => exact ⟨le_refl _, rfl⟩
  | cons e es ih =>
    simp only [List.foldl_cons]
    have h1 := enemyContactPlayer_health e pg.1 pg.2
    have h2 := ih (enemyContactPlayer e pg.1 pg.2)
    exact ⟨le_trans h2.1 h1.1, h2.2.trans h1.2⟩

lemma crowsPhase_health (cs : List Crow) (pg : Player × GameSt) :
    (cs.foldl (fun pg c => crowContactPlayer c pg.1 pg.2) pg).1.health ≤ pg.1.health ∧
    (cs.foldl (fun pg c => crowContactPlayer c pg.1 pg.2) pg).1.maxHealth = pg.1.maxHealth := by
  induction cs generalizing pg with
  | nil => exact ⟨le_refl _, rfl⟩
  | cons c cs ih =>
    simp only [List.foldl_cons]
    have h1 := crowContactPlayer_health c pg.1 pg.2
    have h2 := ih (crowContactPlayer c pg.1 pg.2)
    exact ⟨le_trans h2.1 h1.1, h2.2.trans h1.2⟩

lemma meatsPhase_health (ms : List Meat) (pg : Player × GameSt)
    (h : pg.1.health ≤ pg.1.maxHealth) :
    (ms.foldl (fun pg m =>
      let r := meatPickupPlayer m pg.1 pg.2
      (r.2.1, r.2.2)) pg).1.health ≤
      (ms.foldl (fun pg m =>
        let r := meatPickupPlayer m pg.1 pg.2
        (r.2.1, r.2.2)) pg).1.maxHealth ∧
    (ms.foldl (fun pg m =>
      let r := meatPickupPlayer m pg.1 pg.2
      (r.2.1, r.2.2)) pg).1.maxHealth = pg.1.maxHealth := by
  induction ms generalizing pg with
  | nil => exact ⟨h, rfl⟩
  | cons m ms ih =>
    simp only [List.foldl_cons]
    have h1 := meatPickupPlayer_health m pg.1 pg.2 h
    have h2 := ih ((meatPickupPlayer m pg.1 pg.2).2.1, (meatPickupPlayer m pg.1 pg.2).2.2)
      (by dsimp only; exact h1.2 ▸ h1.1)
    exact ⟨h2.1, h2.2.trans h1.2⟩

/-- C1 (amended): the upper half of the invariant holds — both healing
paths clamp with `Math.min(maxHealth, …)`, and damage only lowers health —
so a tick never raises health above `maxHealth`; but the lower half fails:
damage is applied without a clamp at 0 (see the counterexample), so the
invariant `0 ≤ health` is not maintained on lethal hits. -/
theorem C1_health_upper_bound (es : List Enemy) (cs : List Crow)
    (ms : List Meat) (dogHealing : Bool) (fc : Nat) (p : Player) (g : GameSt)
    (h : p.health ≤ p.maxHealth) :
    (playerHealthTick es cs ms dogHealing fc p g).1.health ≤
      (playerHealthTick es cs ms dogHealing fc p g).1.maxHealth ∧
    (playerHealthTick es cs ms dogHealing fc p g).1.maxHealth = p.maxHealth := by
  unfold playerHealthTick
  dsimp only
  set pg1 := es.foldl (fun pg e => enemyContactPlayer e pg.1 pg.2) (p, g) with hpg1
  set pg2 := cs.foldl (fun pg c => crowContactPlayer c pg.1 pg.2) pg1 with hpg2
  set pg3 := ms.foldl (fun pg m =>
    let r := meatPickupPlayer m pg.1 pg.2
    (r.2.1, r.2.2)) pg2 with hpg3
  have h1 := enemiesPhase_health es (p, g)
  rw [← hpg1] at h1
  have h2 := crowsPhase_health cs pg1
  rw [← hpg2] at h2
  have hle2 : pg2.1.health ≤ pg2.1.maxHealth := by
    rw [h2.2, h1.2]
    exact le_trans h2.1 (le_trans h1.1 h)
  have h3 := meatsPhase_health ms pg2 hle2
  rw [← hpg3] at h3
  have hmax : pg3.1.maxHealth = p.maxHealth := by rw [h3.2, h2.2, h1.2]
  by_cases hd : dogHealing = true
  · simp only [hd, if_true]
    have h4 := dogHealPulse_health fc pg3.1 h3.1
    exact ⟨h4.1, h4.2.trans hmax⟩
  · simp only [hd, if_false]
    exact ⟨h3.1, hmax⟩

/-- C1 witness: the wounded player eating one meat chunk dropped at their
feet ends the tick at health 30 ≤ 100, within the clamp. -/
theorem C1_health_upper_bound_witness :
    (playerHealthTick [] []
      [{ x := 50, y := 100, width := 16, height := 16, vy := 0,
         markedForDeletion := false, value := 20 }]
      false 1 woundedPlayer playingSt).1.health ≤
      (playerHealthTick [] []
        [{ x := 50, y := 100, width := 16, height := 16, vy := 0,
           markedForDeletion := false, value := 20 }]
        false 1 woundedPlayer playingSt).1.maxHealth := by
  exact (C1_health_upper_bound [] []
    [{ x := 50, y := 100, width := 16, height := 16, vy := 0,
       markedForDeletion := false, value := 20 }]
    false 1 woundedPlayer playingSt (by norm_num [woundedPlayer])).1

/-! ### Arrow interactions (C3, C8) -/

/-- `killEnemy` (part_001 lines 916-929): the creature is flagged for the
end-of-pass purge, `enemiesKilled++` and `score += 100`
(`killEnemyGame`).  Its probabilistic meat/power-up drops append to the
pickup lists and write no field read by any claim settled here; they are
omitted.  Note the function does NOT check `markedForDeletion` before
applying the reward. -/
def killEnemy (e : Enemy) (g : GameSt) : Enemy × GameSt :=
  ({ e with markedForDeletion := true }, killEnemyGame g)

/-- The per-arrow bookkeeping and physics at the top of the `updateArrows`
loop body (part_001 lines 1005-1011): lifetime decrement and expiry flag,
arrow gravity, integration. -/
def arrowMoveStep (a : Arrow) : Arrow :=
  let lt := a.lifeTime - 1
  let vy := a.vy + ARROW_GRAVITY
  { a with
    lifeTime := lt,
    markedForDeletion := a.markedForDeletion || decide (lt ≤ 0),
    vy := vy,
    x := a.x + a.vx,
    y := a.y + vy }

/-- Arrow damage per hit (part_001 line 1016):
`1 * (powerUpTimer > 0 ? 3 : 1)`. -/
def arrowDamage (powerUpTimer : Int) : ℚ :=
  if powerUpTimer > 0 then 3 else 1

/-- One arrow-vs-creature check (part_001 lines 1013-1021).  The overlap
test is performed regardless of either entity's `markedForDeletion` flag;
on a hit the arrow is flagged, the creature loses `dmg` health, and either
`killEnemy` runs (health ≤ 0) or the creature is knocked back
(`vx = -vx`) and briefly stunned (`stunTimer = 10`). -/
def arrowHitEnemy (dmg : ℚ) (a : Arrow) (e : Enemy) (g : GameSt) :
    Arrow × Enemy × GameSt :=
  if checkCollision a.rect e.rect = true then
    let a1 := { a with markedForDeletion := true }
    let e1 := { e with health := e.health - dmg }
    if e1.health ≤ 0 then
      let r := killEnemy e1 g
      (a1, r.1, r.2)
    else (a1, { e1 with vx := -e1.vx, stunTimer := 10 }, g)
  else (a, e, g)

/-- The inner `enemies.forEach` of one arrow (part_001 lines 1013-1021),
threading the mutated arrow and game record through the creature list in
order. -/
def arrowVsEnemies (dmg : ℚ) (a : Arrow) :
    List Enemy → GameSt → Arrow × List Enemy × GameSt
  | [], g => (a, [], g)
  | e :: es, g =>
    let r1 := arrowHitEnemy dmg a e g
    let r2 := arrowVsEnemies dmg r1.1 es r1.2.2
    (r2.1, r1.2.1 :: r2.2.1, r2.2.2)

/-- One arrow-vs-crow check (part_001 lines 1022-1027): on overlap the
arrow is flagged, the crow loses 1 health, and at ≤ 0 the crow is flagged
and `score += 150` (crow kills do not touch `enemiesKilled`). -/
def arrowHitCrow (a : Arrow) (c : Crow) (g : GameSt) :
    Arrow × Crow × GameSt :=
  if checkCollision a.rect c.rect = true then
    let a1 := { a with markedForDeletion := true }
    let c1 := { c with health := c.health - 1 }
    if c1.health ≤ 0 then
      (a1, { c1 with markedForDeletion := true }, { g with score := g.score + 150 })
    else (a1, c1, g)
  else (a, c, g)

/-- The inner `crows.forEach` of one arrow (part_001 lines 1022-1027). -/
def arrowVsCrows (a : Arrow) :
    List Crow → GameSt → Arrow × List Crow × GameSt
  | [], g => (a, [], g)
  | c :: cs, g =>
    let r1 := arrowHitCrow a c g
    let r2 := arrowVsCrows r1.1 cs r1.2.2
    (r2.1, r1.2.1 :: r2.2.1, r2.2.2)

/-- `checkPlatformCollisionsSimple` (part_001 lines 905-914): feet-point
test against the platform tops. -/
def checkPlatformCollisionsSimple (plats : List Rect) (x w y h : ℚ) : Bool :=
  plats.any fun p =>
    (x + w/2 > p.x) && (x + w/2 < p.x + p.width) &&
    (y + h ≥ p.y) && (y + h ≤ p.y + 10)

/-- One full iteration of the `updateArrows` loop for a single arrow
(part_001 lines 1004-1029): move, enemy checks, crow checks, platform
impact (skipped on the top-down level). -/
def arrowFullStep (topDown : Bool) (dmg : ℚ) (plats : List Rect)
    (a : Arrow) (es : List Enemy) (cs : List Crow) (g : GameSt) :
    Arrow × List Enemy × List Crow × GameSt :=
  let a0 := arrowMoveStep a
  let r1 := arrowVsEnemies dmg a0 es g
  let r2 := arrowVsCrows r1.1 cs r1.2.2
  let a3 :=
    if topDown = false ∧ checkPlatformCollisionsSimple plats r2.1.x r2.1.width r2.1.y r2.1.height = true
    then { r2.1 with markedForDeletion := true }
    else r2.1
  (a3, r1.2.1, r2.2.1, r2.2.2)

/-- `updateArrows` (part_001 lines 1004-1031) without the final filter:
every arrow in order runs its full loop iteration against the (already
mutated) creature and crow lists. -/
def updateArrowsList (topDown : Bool) (dmg : ℚ) (plats : List Rect) :
    List Arrow → List Enemy → List Crow → GameSt →
      List Arrow × List Enemy × List Crow × GameSt
  | [], es, cs, g => ([], es, cs, g)
  | a :: rest, es, cs, g =>
    let r1 := arrowFullStep topDown dmg plats a es cs g
    let r2 := updateArrowsList topDown dmg plats rest r1.2.1 r1.2.2.1 r1.2.2.2
    (r1.1 :: r2.1, r2.2.1, r2.2.2.1, r2.2.2.2)

/-- `updateArrows` including its final purge of consumed arrows (part_001
line 1030).  The creature list is NOT filtered here: `updateEnemies` purges
it, and it runs before `updateArrows` in the tick, so a creature killed by
an arrow stays in the list (flagged) until the next tick. -/
def updateArrows (topDown : Bool) (dmg : ℚ) (plats : List Rect)
    (arrows : List Arrow) (es : List Enemy) (cs : List Crow) (g : GameSt) :
    List Arrow × List Enemy × List Crow × GameSt :=
  let r := updateArrowsList topDown dmg plats arrows es cs g
  (r.1.filter (fun a => !a.markedForDeletion), r.2.1, r.2.2.1, r.2.2.2)

/-- A hostile creature one hit from death. -/
def enemyOneHp : Enemy :=
  { x := 100, y := 100, width := 36, height := 24, vx := 0, vy := 0,
    grounded := false, markedForDeletion := false, health := 1, maxHealth := 2,
    stunTimer := 0 }

/-- An arrow whose post-move rectangle overlaps `enemyOneHp`. -/
def arrowOnEnemy : Arrow :=
  { x := 100, y := 100, width := 24, height := 6, vx := 0, vy := 0,
    markedForDeletion := false, lifeTime := 100 }

/-- C3: the claim says the kill reward is applied exactly once per
creature even when several projectiles overlap it in one tick, and that
collision checks against a creature already marked for removal are
skipped.  Evaluation at the failing input: two arrows overlapping a 1-hp
creature in the same tick each trigger `killEnemy`, so `enemiesKilled`
rises by 2 and `score` by 200 for one creature — the second check was
neither skipped nor its reward suppressed. -/
theorem C3_double_kill_reward_eval :
    (updateArrows false 1 [] [arrowOnEnemy, arrowOnEnemy] [enemyOneHp] []
        playingSt).2.2.2.enemiesKilled = 2 ∧
    (updateArrows false 1 [] [arrowOnEnemy, arrowOnEnemy] [enemyOneHp] []
        playingSt).2.2.2.score = 200 ∧
    (updateArrows false 1 [] [arrowOnEnemy, arrowOnEnemy] [enemyOneHp] []
        playingSt).2.1 =
      [{ enemyOneHp with health := -1, markedForDeletion := true }] := by
  refine ⟨?_, ?_, ?_⟩ <;>
    norm_num [updateArrows, updateArrowsList, arrowFullStep, arrowVsEnemies,
      arrowVsCrows, arrowHitEnemy, arrowHitCrow, arrowMoveStep, killEnemy,
      killEnemyGame, checkPlatformCollisionsSimple, checkCollision,
      Arrow.rect, Enemy.rect, arrowOnEnemy, enemyOneHp, playingSt, menuSt,
      ARROW_GRAVITY, List.filter]

/-! ### Cage and companion (C8) -/

inductive DogState
  | IDLE
  | FOLLOW
  | CHASE
  | BRAWL
  | HEAL
  | POINTING
  | FLUSH
  | CARRY
deriving DecidableEq

/-- Companion entity (types.ts `DogEntity`); the target back-reference is a
raw object reference in the source and is not needed by the claims settled
here; bark/animation timers are render-only. -/
structure Dog where
  x : ℚ
  y : ℚ
  vx : ℚ
  vy : ℚ
  state : DogState
  aggroTimer : Int
  healTimer : Int
deriving DecidableEq

/-- The companion logic of `startLevel` (part_001 lines 210-235): an
existing dog is repositioned and reset; otherwise a dog is created exactly
when the level being started is 3.  No cage state is consulted. -/
def dogAfterStartLevel (level : Nat) (dog : Option Dog) : Option Dog :=
  match dog with
  | some d =>
    some { d with
      x := 20, y := CANVAS_HEIGHT - 100, vx := 0, vy := 0,
      state := DogState.IDLE, aggroTimer := 0 }
  | none =>
    if level = 3 then
      some { x := 100, y := CANVAS_HEIGHT / 2, vx := 0, vy := 0,
             state := DogState.IDLE, aggroTimer := 0, healTimer := 0 }
    else none

/-- The entity stores touched by `updateArrows`, plus the cage list and
the companion slot.  `generateLevel` (part_001 lines 298-300) creates a
cage on level 2 when no dog exists, but no function of the update loop
(`updateEnemies`, `updateCrows`, `updateDucks`, `updateArrows`,
`updateNets`, `updateParticles`, `updateMeats`, `updatePowerUps`,
`updateFloatingTexts`, `updateDog`, `updateBushesAndRabbits`) ever reads
or writes `entities.current.cages` or frees the dog from a cage; the
model therefore carries the cage list and dog slot through `updateArrows`
unchanged, exactly as the source does. -/
structure World where
  player : Player
  arrows : List Arrow
  enemies : List Enemy
  crows : List Crow
  cages : List Cage
  dog : Option Dog
  game : GameSt
deriving DecidableEq

/-- `updateArrows` lifted to the world: the only entity stores it writes
are the arrows, creatures, crows and the game record. -/
def updateArrowsWorld (topDown : Bool) (plats : List Rect) (w : World) :
    World :=
  let r := updateArrows topDown (arrowDamage w.player.powerUpTimer) plats
    w.arrows w.enemies w.crows w.game
  { w with arrows := r.1, enemies := r.2.1, crows := r.2.2.1, game := r.2.2.2 }

/-- The level-2 cage (part_001 line 299). -/
def levelTwoCage : Cage :=
  { x := 600, y := 290, width := 60, height := 60, health := 3,
    markedForDeletion := false }

/-- An arrow whose post-move rectangle overlaps the level-2 cage. -/
def arrowOnCage : Arrow :=
  { x := 610, y := 300, width := 24, height := 6, vx := 0, vy := 0,
    markedForDeletion := false, lifeTime := 100 }

/-- The level-2 world at the failing input: no dog yet, the cage intact,
one arrow inside the cage's rectangle. -/
def cageWorld : World :=
  { player := woundedPlayer,
    arrows := [arrowOnCage],
    enemies := [],
    crows := [],
    cages := [levelTwoCage],
    dog := none,
    game := { playingSt with level := 2, enemiesRequired := 8, isRaining := true } }

/-- C8: the claim says some update-loop operation damages a cage and, on
its destruction, frees the companion.  Evaluation at the failing input: an
arrow overlapping the cage flies straight through `updateArrows` — the
cage keeps health 3 and no companion appears — and `startLevel` creates
the companion purely from the level index (level 3), never from cage
state. -/
theorem C8_cage_never_damaged_eval :
    checkCollision (arrowMoveStep arrowOnCage).rect levelTwoCage.rect = true ∧
    (updateArrowsWorld false [] cageWorld).cages = [levelTwoCage] ∧
    (updateArrowsWorld false [] cageWorld).dog = none ∧
    dogAfterStartLevel 2 none = none ∧
    (dogAfterStartLevel 3 none).isSome = true := by
  refine ⟨?_, ?_, ?_, ?_, ?_⟩ <;>
    norm_num [updateArrowsWorld, updateArrows, updateArrowsList,
      arrowFullStep, arrowVsEnemies, arrowVsCrows, arrowMoveStep,
      checkPlatformCollisionsSimple, checkCollision, arrowDamage,
      Arrow.rect, Cage.rect, arrowOnCage, levelTwoCage, cageWorld,
      woundedPlayer, playingSt, menuSt, dogAfterStartLevel,
      ARROW_GRAVITY, List.filter]

/-- C6 witness: the characterisation applied to an edge-touching pair
(reported non-colliding) and a genuinely overlapping pair. -/
theorem C6_checkCollision_strict_overlap_witness :
    checkCollision { x := 0, y := 0, width := 10, height := 10 }
      { x := 10, y := 0, width := 10, height := 10 } = false ∧
    checkCollision { x := 0, y := 0, width := 10, height := 10 }
      { x := 5, y := 5, width := 10, height := 10 } = true := by
  constructor
  · exact (C6_checkCollision_strict_overlap
      { x := 0, y := 0, width := 10, height := 10 }
      { x := 10, y := 0, width := 10, height := 10 }).2 (by norm_num)
  · exact (C6_checkCollision_strict_overlap
      { x := 0, y := 0, width := 10, height := 10 }
      { x := 5, y := 5, width := 10, height := 10 }).1.mpr (by norm_num)

end Hunt
